import Mathlib

/-!
Shallow embedding of the device-control core of `tools/linuwu_sense_gui.py`
(Linuwu-Sense GUI): hex-color validation, sysfs path detection, payload
encoding and the apply handlers, together with theorems settling the spec
claims about them.

Python strings are modelled as Lean `String` (manipulated through their
`List Char` data); Python exceptions as `Except PyErr`; the filesystem and
the write collaborator as explicit function parameters.
-/

set_option maxRecDepth 10000

namespace LinuwuSense

/-- Python exceptions that the core handlers can raise.  `msg` is what
`str(e)` renders in the `except Exception` handler. -/
inductive PyErr where
  | valueError (msg : String)
  | fileNotFound (msg : String)
  | indexError (msg : String)
deriving DecidableEq, Repr

/-- The message an exception carries (Python `str(e)` for these types). -/
def PyErr.msg : PyErr → String
  | .valueError m => m
  | .fileNotFound m => m
  | .indexError m => m

/-- ASCII whitespace characters stripped by Python `str.strip()` and split on
by `str.split()` (the ASCII fragment; the sysfs inputs involved are ASCII). -/
def pyIsSpace (c : Char) : Bool :=
  c == ' ' || c == '\t' || c == '\n' || c == '\r' || c == Char.ofNat 11 || c == Char.ofNat 12

/-- Drop the leading whitespace of a character list (one side of `strip()`). -/
def dropLeadingWS : List Char → List Char
  | [] => []
  | c :: cs => if pyIsSpace c then dropLeadingWS cs else c :: cs

/-- Python `str.strip()` on the character list: drop leading whitespace, then
drop trailing whitespace (via reversal). -/
def pyStripList (cs : List Char) : List Char :=
  (dropLeadingWS (dropLeadingWS cs).reverse).reverse

/-- Python `str.strip()`. -/
def pyStrip (s : String) : String :=
  ⟨pyStripList s.data⟩

/-- The characters of the literal `"0123456789abcdefABCDEF"` that
`parse_hex_color` tests membership in. -/
def HEX_CHARS : List Char := "0123456789abcdefABCDEF".data

/-- Python `c in "0123456789abcdefABCDEF"`. -/
def isHexCh (c : Char) : Bool := HEX_CHARS.contains c

/-- ASCII lowercasing, the behaviour of Python `str.lower()` on the ASCII
range (the only characters that survive validation here). -/
def asciiToLower (c : Char) : Char :=
  if 'A' ≤ c ∧ c ≤ 'Z' then Char.ofNat (c.toNat + 32) else c

/-- Python `s[1:]` applied when `s.startswith("#")`: drop a single leading
`'#'` if present. -/
def dehash (cs : List Char) : List Char :=
  if cs.head? = some '#' then cs.tail else cs

/-- The body of `parse_hex_color` after the initial `strip()`: drop one
optional leading `'#'`, require 6 hex characters, normalize to lowercase. -/
def parseCore (cs : List Char) : Except PyErr String :=
  let cs2 := dehash cs
  if cs2.length ≠ 6 ∨ cs2.any (fun c => !(isHexCh c)) then
    .error (.valueError "Use RRGGBB or #RRGGBB")
  else
    .ok ⟨cs2.map asciiToLower⟩

/-- `parse_hex_color` of `tools/linuwu_sense_gui.py` (lines 71-77). -/
def parse_hex_color (s : String) : Except PyErr String :=
  parseCore (pyStripList s.data)

/-- Python `str.split()` with no argument, on the character list: split on
runs of whitespace, never producing empty tokens.  `acc` holds the current
token's characters in reverse. -/
def splitWSAux : List Char → List Char → List String
  | [], acc => if acc = [] then [] else [⟨acc.reverse⟩]
  | c :: cs, acc =>
    if pyIsSpace c then
      if acc = [] then splitWSAux cs []
      else (⟨acc.reverse⟩ : String) :: splitWSAux cs []
    else splitWSAux cs (c :: acc)

/-- Python `str.split()` with no argument. -/
def pySplitWS (s : String) : List String := splitWSAux s.data []

/-- The environment's filesystem, as seen by the core: `os.path.exists` and
the contents handed back by `open(...).read()` (`none` models a read that
raises). -/
structure Fs where
  pathExists : String → Bool
  read : String → Option String

/-- Result of the external write collaborator (`write_text`): success, a
`PermissionError`, or any other `IOError` carrying its message. -/
inductive WriteRes where
  | ok
  | permissionError
  | ioError (msg : String)
deriving DecidableEq, Repr

/-- The write collaborator: given path and content, reports the outcome. -/
abbrev Writer := String → String → WriteRes

/-- What a handler shows in the status label: `notifier.info` or
`notifier.error` with the given message. -/
inductive Outcome where
  | info (msg : String)
  | error (msg : String)
deriving DecidableEq, Repr

/-- Modelled from the spec: `SYSFS_BASE` of the `linuwuctl` module (the module
is not under src/), "the known sysfs base" directory all vendor paths hang
off. -/
def SYSFS_BASE : String := "/sys/module/linuwu_sense/drivers/platform:acer-wmi/acer-wmi"

/-- Modelled from the spec: `SENSE_PRED` of the `linuwuctl` module, the
"predator" vendor-specific candidate subdirectory, probed first. -/
def SENSE_PRED : String := SYSFS_BASE ++ "/predator_sense"

/-- Modelled from the spec: `SENSE_NITRO` of the `linuwuctl` module, the
"nitro" vendor-specific candidate subdirectory, probed second. -/
def SENSE_NITRO : String := SYSFS_BASE ++ "/nitro_sense"

/-- Modelled from the spec: `KB_PER_ZONE` of the `linuwuctl` module, the fixed
`per_zone_mode` device file for the keyboard static surface. -/
def KB_PER_ZONE : String := SYSFS_BASE ++ "/per_zone_mode"

/-- Modelled from the spec: `KB_FOUR_MODE` of the `linuwuctl` module, the
fixed `four_zone_mode` device file for the keyboard effect surface. -/
def KB_FOUR_MODE : String := SYSFS_BASE ++ "/four_zone_mode"

/-- Modelled from the spec: `PLATFORM_PROFILE` of the `linuwuctl` module, the
single fixed (not vendor-specific) ACPI platform-profile file. -/
def PLATFORM_PROFILE : String := "/sys/firmware/acpi/platform_profile"

/-- Modelled from the spec: `PLATFORM_PROFILE_CHOICES` of the `linuwuctl`
module, the file listing the available platform-profile choices. -/
def PLATFORM_PROFILE_CHOICES : String := "/sys/firmware/acpi/platform_profile_choices"

/-- Modelled from the spec: `MODE_NAME_TO_ID` of the `linuwuctl` module, the
fixed effect mode-name to integer mode-id table (the spec fixes that "wave"
is a key; ids follow the driver's `four_zone_mode` numbering). -/
def MODE_NAME_TO_ID : List (String × Int) :=
  [("static", 0), ("breath", 1), ("neon", 2), ("wave", 3), ("shifting", 4), ("zoom", 5)]

/-- `detect_sense_fan_path` of `tools/linuwu_sense_gui.py` (lines 80-90):
pick a base directory (predator first, then nitro) by directory existence,
then return `base/fan_speed` if that file exists. -/
def detect_sense_fan_path (fs : Fs) : Option String :=
  let base : Option String :=
    if fs.pathExists SYSFS_BASE then
      if fs.pathExists SENSE_PRED then some SENSE_PRED
      else if fs.pathExists SENSE_NITRO then some SENSE_NITRO
      else none
    else none
  match base with
  | none => none
  | some b =>
    let p := b ++ "/fan_speed"
    if fs.pathExists p then some p else none

/-- The predator fan-speed file path (`os.path.join(SENSE_PRED, "fan_speed")`). -/
def PRED_FAN : String := SENSE_PRED ++ "/fan_speed"

/-- The nitro fan-speed file path (`os.path.join(SENSE_NITRO, "fan_speed")`). -/
def NITRO_FAN : String := SENSE_NITRO ++ "/fan_speed"

/-- Numeric value of a single hex digit (0 on non-hex input, which never
occurs on validated colors). -/
def hexDigitVal (c : Char) : Nat :=
  if '0' ≤ c ∧ c ≤ '9' then c.toNat - 48
  else if 'a' ≤ c ∧ c ≤ 'f' then c.toNat - 87
  else if 'A' ≤ c ∧ c ≤ 'F' then c.toNat - 55
  else 0

/-- Value of Python `int(s, 16)` on the slices of a string that has passed
`parse_hex_color` (nonempty, all hex digits): base-16 digit fold. -/
def int16 (cs : List Char) : Int :=
  cs.foldl (fun a c => 16 * a + (hexDigitVal c : Int)) 0

/-- The list comprehension `[parse_hex_color(er.get_text()) for er in z_entries]`:
parse each entry text left to right, the first exception propagating. -/
def parseColorList : List String → Except PyErr (List String)
  | [] => .ok []
  | t :: ts => do
    let c ← parse_hex_color t
    let cs ← parseColorList ts
    pure (c :: cs)

/-- Everything `apply_static` (lines 202-220) does before the write: path
check, color validation, single-color replication (`colors * 4`), payload
construction.  Returns the path and payload handed to `write_text`. -/
def apply_static_core (fs : Fs) (single : Bool) (singleText : String)
    (zoneTexts : List String) (brightness : Int) : Except PyErr (String × String) := do
  if fs.pathExists KB_PER_ZONE = false then
    throw (.fileNotFound ("Missing per_zone_mode at " ++ KB_PER_ZONE))
  let colors ←
    if single then do
      let c ← parse_hex_color singleText
      pure [c]
    else do
      let cs ← parseColorList zoneTexts
      if cs.length ≠ 4 then throw (.valueError "Provide 4 colors")
      pure cs
  let colors := if colors.length = 1 then (List.replicate 4 colors).flatten else colors
  let payload := String.intercalate "," (colors ++ [toString brightness]) ++ "\n"
  pure (KB_PER_ZONE, payload)

/-- Everything `apply_effect` (lines 263-286) does before the write:
path check, mode-id lookup with default 0 (`dict.get(name, 0)`), optional
color parse, payload construction. -/
def apply_effect_core (fs : Fs) (modeName : String) (speed brightness direction : Int)
    (colorText : String) : Except PyErr (String × String) := do
  if fs.pathExists KB_FOUR_MODE = false then
    throw (.fileNotFound ("Missing four_zone_mode at " ++ KB_FOUR_MODE))
  let modeId : Int := (MODE_NAME_TO_ID.lookup modeName).getD 0
  let ctext := pyStrip colorText
  let rgb : Int × Int × Int ←
    if ctext ≠ "" then do
      let col ← parse_hex_color ctext
      pure (int16 (col.data.take 2), int16 ((col.data.drop 2).take 2),
            int16 ((col.data.drop 4).take 2))
    else pure (0, 0, 0)
  let payload := String.intercalate ","
    ([modeId, speed, brightness, direction, rgb.1, rgb.2.1, rgb.2.2].map toString) ++ "\n"
  pure (KB_FOUR_MODE, payload)

/-- Everything `apply_fans` (lines 390-404) does before the write: fan path
detection (Python truthiness of the path), auto/manual branch, range check,
payload construction. -/
def apply_fans_core (fs : Fs) (auto : Bool) (cpu gpu : Int) : Except PyErr (String × String) := do
  match detect_sense_fan_path fs with
  | none => throw (.fileNotFound "fan_speed path not found (is the module loaded?)")
  | some p =>
    if p = "" then throw (.fileNotFound "fan_speed path not found (is the module loaded?)")
    else if auto then pure (p, "0,0\n")
    else if ¬ (0 ≤ cpu ∧ cpu ≤ 100 ∧ 0 ≤ gpu ∧ gpu ≤ 100) then
      throw (.valueError "Percentages must be 0-100")
    else pure (p, toString cpu ++ "," ++ toString gpu ++ "\n")

/-- Everything `apply_profile` (lines 338-350) does before the write: path
check, selection lookup (Python truthiness of `sel`), payload construction.
Returns the selected profile together with path and payload. -/
def apply_profile_core (fs : Fs) (choices : List String) (idx : Nat) :
    Except PyErr (String × String × String) := do
  if fs.pathExists PLATFORM_PROFILE = false then
    throw (.fileNotFound ("Missing " ++ PLATFORM_PROFILE))
  let sel : Option String ←
    if choices = [] then pure none
    else
      match choices.get? idx with
      | some s => pure (some s)
      | none => throw (.indexError "list index out of range")
  match sel with
  | none => throw (.valueError "No profile selected")
  | some s =>
    if s = "" then throw (.valueError "No profile selected")
    else pure (s, PLATFORM_PROFILE, s ++ "\n")

/-- The shared `try`/`except` shape of every apply handler: on a pre-write
exception show `Error: {e}` and write nothing; otherwise perform the single
write and map `PermissionError` / other failures to their messages.  The
second component is the list of writes attempted on the device. -/
def runApply (w : Writer) (okMsg : String) (core : Except PyErr (String × String)) :
    Outcome × List (String × String) :=
  match core with
  | .error e => (.error ("Error: " ++ e.msg), [])
  | .ok (p, pay) =>
    match w p pay with
    | .ok => (.info okMsg, [(p, pay)])
    | .permissionError => (.error "Permission denied: run as root to apply.", [(p, pay)])
    | .ioError m => (.error ("Error: " ++ m), [(p, pay)])

/-- The `apply_static` click handler (lines 202-227). -/
def apply_static (fs : Fs) (w : Writer) (single : Bool) (singleText : String)
    (zoneTexts : List String) (brightness : Int) : Outcome × List (String × String) :=
  runApply w "Keyboard static colors applied"
    (apply_static_core fs single singleText zoneTexts brightness)

/-- The `apply_effect` click handler (lines 263-286). -/
def apply_effect (fs : Fs) (w : Writer) (modeName : String)
    (speed brightness direction : Int) (colorText : String) :
    Outcome × List (String × String) :=
  runApply w "Keyboard effect applied"
    (apply_effect_core fs modeName speed brightness direction colorText)

/-- The `apply_fans` click handler (lines 390-409). -/
def apply_fans (fs : Fs) (w : Writer) (auto : Bool) (cpu gpu : Int) :
    Outcome × List (String × String) :=
  runApply w "Fan settings applied" (apply_fans_core fs auto cpu gpu)

/-- The `apply_profile` click handler (lines 338-350); the success message
mentions the selected profile. -/
def apply_profile (fs : Fs) (w : Writer) (choices : List String) (idx : Nat) :
    Outcome × List (String × String) :=
  match apply_profile_core fs choices idx with
  | .error e => (.error ("Error: " ++ e.msg), [])
  | .ok (sel, p, pay) =>
    match w p pay with
    | .ok => (.info ("Power profile set to " ++ sel), [(p, pay)])
    | .permissionError => (.error "Permission denied: run as root to apply.", [(p, pay)])
    | .ioError m => (.error ("Error: " ++ m), [(p, pay)])

/-- The hardcoded fallback profile list ("Reasonable defaults", line 316). -/
def DEFAULT_CHOICES : List String := ["balanced", "performance", "power-saver"]

/-- The choices-loading block of `_build_power_page` (lines 306-316):
`read_text` strips the raw contents, `raw.split()` tokenizes, the
comprehension filters empty tokens, and an empty result falls back to the
defaults.  A `none` read models the `except` branch. -/
def load_power_choices (fs : Fs) : List String :=
  let choices : List String :=
    if fs.pathExists PLATFORM_PROFILE_CHOICES then
      match fs.read PLATFORM_PROFILE_CHOICES with
      | some raw0 => (pySplitWS (pyStrip raw0)).filter (fun c => !(c == ""))
      | none => []
    else []
  if choices = [] then DEFAULT_CHOICES else choices

/-! Spec-side definitions: these follow the wording of the spec / claims, to
be compared against the embedded source functions. -/

/-- Fan path resolution as claim C1 words it: probe the two candidates in
priority order, the winner being the first candidate whose `fan_speed` file
exists; NotFound when the sysfs base is absent or neither has one. -/
def claimFanResolve (fs : Fs) : Option String :=
  if fs.pathExists SYSFS_BASE then
    if fs.pathExists PRED_FAN then some PRED_FAN
    else if fs.pathExists NITRO_FAN then some NITRO_FAN
    else none
  else none

/-- Color validation as claim C3 words it (no whitespace handling): strip a
single optional leading `'#'`, succeed iff exactly 6 hex characters remain,
returning the lowercase form. -/
def validateColorClaim (s : String) : Option String :=
  let cs := dehash s.data
  if cs.length = 6 ∧ (∀ c ∈ cs, isHexCh c = true) then some ⟨cs.map asciiToLower⟩
  else none

/-- Color validation as C3 amended: additionally strip surrounding whitespace
first, as the source does. -/
def validateColorSpec (s : String) : Option String :=
  let cs := dehash (pyStripList s.data)
  if cs.length = 6 ∧ (∀ c ∈ cs, isHexCh c = true) then some ⟨cs.map asciiToLower⟩
  else none

/-- Claim-side base-16 value of the hex digit pair starting at index `i` of a
color ("parsing hex digit pairs `[i:i+2]` as base-16 integers"). -/
def hexPairVal (cs : List Char) (i : Nat) : Int :=
  int16 ((cs.drop i).take 2)

/-- `encodeKeyboardEffect` as the spec states it: comma-separated decimal
integers `modeId,speed,brightness,direction,r,g,b` plus a newline, with
`r,g,b` from the hex pairs `[0:2]`, `[2:4]`, `[4:6]` of the color when
present, all 0 when absent. -/
def encodeKeyboardEffectSpec (modeId speed brightness direction : Int)
    (color : Option String) : String :=
  let rgb : Int × Int × Int :=
    match color with
    | none => (0, 0, 0)
    | some c => (hexPairVal c.data 0, hexPairVal c.data 2, hexPairVal c.data 4)
  String.intercalate ","
    ([modeId, speed, brightness, direction, rgb.1, rgb.2.1, rgb.2.2].map toString) ++ "\n"

/-- `encodeKeyboardStatic` as the spec states it: the 4 zone colors and the
decimal brightness, comma-separated, plus a single newline. -/
def encodeKeyboardStaticSpec (zones : List String) (brightness : Int) : String :=
  String.intercalate "," (zones ++ [toString brightness]) ++ "\n"

/-- A valid color entry in the claims' sense: after removing one optional
leading `'#'`, exactly 6 hex characters (case-insensitive). -/
def ValidColorInput (s : String) : Prop :=
  (dehash s.data).length = 6 ∧ ∀ c ∈ dehash s.data, isHexCh c = true

/-- A normalized `HexColor` in the spec's sense: exactly 6 characters, each
in `[0-9a-f]`. -/
def IsHexColor (s : String) : Prop :=
  s.data.length = 6 ∧ ∀ c ∈ s.data, c ∈ "0123456789abcdef".data

/-! Concrete fixtures used by counterexamples and witnesses. -/

/-- A filesystem where every probed path exists and nothing is readable. -/
def fsAll : Fs := ⟨fun _ => true, fun _ => none⟩

/-- The C1 counterexample filesystem: sysfs base, predator directory (without
its `fan_speed`), nitro directory and nitro `fan_speed` all exist. -/
def fsPredNoFan : Fs :=
  ⟨fun p => [SYSFS_BASE, SENSE_PRED, SENSE_NITRO, NITRO_FAN].contains p, fun _ => none⟩

/-- A filesystem with the full predator chain present. -/
def fsPred : Fs :=
  ⟨fun p => [SYSFS_BASE, SENSE_PRED, PRED_FAN].contains p, fun _ => none⟩

/-- A write collaborator that always succeeds. -/
def okWriter : Writer := fun _ _ => .ok

/-- A write collaborator that always reports a permission failure. -/
def permWriter : Writer := fun _ _ => .permissionError

/-! Helper lemmas about characters, stripping and splitting. -/

lemma mem_hex_of_isHexCh {c : Char} (h : isHexCh c = true) : c ∈ HEX_CHARS :=
  List.elem_iff.mp h

lemma pyIsSpace_eq_false_of_hex {c : Char} (h : isHexCh c = true) : pyIsSpace c = false := by
  have hm := mem_hex_of_isHexCh h
  fin_cases hm <;> rfl

lemma ne_hash_of_hex {c : Char} (h : isHexCh c = true) : c ≠ '#' := by
  have hm := mem_hex_of_isHexCh h
  fin_cases hm <;> decide

lemma isHexCh_of_lower {c : Char} (h : c ∈ "0123456789abcdef".data) : isHexCh c = true := by
  fin_cases h <;> rfl

lemma asciiToLower_fix {c : Char} (h : c ∈ "0123456789abcdef".data) : asciiToLower c = c := by
  fin_cases h <;> rfl

lemma string_mk_eq_empty_iff (l : List Char) : (String.mk l = "") ↔ l = [] := by
  constructor
  · intro h
    exact String.ext_iff.mp h
  · intro h
    subst h
    rfl

lemma dropLeadingWS_append_of_space (ws cs : List Char) (h : ∀ c ∈ ws, pyIsSpace c = true) :
    dropLeadingWS (ws ++ cs) = dropLeadingWS cs := by
  induction ws with
  | nil => rfl
  | cons c t ih =>
    have hc : pyIsSpace c = true := h c (by simp)
    have ht : ∀ x ∈ t, pyIsSpace x = true := fun x hx => h x (by simp [hx])
    simpa [dropLeadingWS, hc] using ih ht

lemma dropLeadingWS_exists_ws (cs : List Char) :
    ∃ ws, cs = ws ++ dropLeadingWS cs ∧ ∀ c ∈ ws, pyIsSpace c = true := by
  induction cs with
  | nil => exact ⟨[], rfl, by simp⟩
  | cons c t ih =>
    by_cases hc : pyIsSpace c = true
    · obtain ⟨ws, hws, hall⟩ := ih
      refine ⟨c :: ws, ?_, ?_⟩
      · simpa [dropLeadingWS, hc] using hws
      · intro x hx
        rcases List.mem_cons.mp hx with rfl | hx
        · exact hc
        · exact hall x hx
    · exact ⟨[], by simp [dropLeadingWS, hc], by simp⟩

lemma dropLeadingWS_of_head (l : List Char)
    (h : ∀ c, l.head? = some c → pyIsSpace c = false) :
    dropLeadingWS l = l := by
  cases l with
  | nil => rfl
  | cons c t => simp [dropLeadingWS, h c rfl]

lemma pyStripList_of_clean (l : List Char)
    (hh : ∀ c, l.head? = some c → pyIsSpace c = false)
    (hl : ∀ c, l.getLast? = some c → pyIsSpace c = false) :
    pyStripList l = l := by
  unfold pyStripList
  rw [dropLeadingWS_of_head l hh]
  rw [dropLeadingWS_of_head l.reverse
    (fun c hc => hl c (by rwa [List.head?_reverse] at hc))]
  exact List.reverse_reverse l

lemma pyStripList_padded (ws1 l ws2 : List Char)
    (h1 : ∀ c ∈ ws1, pyIsSpace c = true) (h2 : ∀ c ∈ ws2, pyIsSpace c = true)
    (hh : ∀ c, l.head? = some c → pyIsSpace c = false)
    (hl : ∀ c, l.getLast? = some c → pyIsSpace c = false) :
    pyStripList (ws1 ++ l ++ ws2) = l := by
  cases l with
  | nil =>
    have hws : ∀ c ∈ ws1 ++ ws2, pyIsSpace c = true := by
      intro c hc
      rcases List.mem_append.mp hc with hc | hc
      · exact h1 c hc
      · exact h2 c hc
    have hdrop : dropLeadingWS (ws1 ++ ([] : List Char) ++ ws2) = [] := by
      have := dropLeadingWS_append_of_space (ws1 ++ ws2) [] (by simpa using hws)
      simpa using this
    unfold pyStripList
    rw [hdrop]
    rfl
  | cons c t =>
    have hc : pyIsSpace c = false := hh c rfl
    have hstep1 : dropLeadingWS (ws1 ++ (c :: t) ++ ws2) = (c :: t) ++ ws2 := by
      rw [List.append_assoc, dropLeadingWS_append_of_space ws1 _ h1]
      exact dropLeadingWS_of_head _ (by intro x hx; simp at hx; subst hx; exact hc)
    have hstep2 : dropLeadingWS ((c :: t) ++ ws2).reverse = (c :: t).reverse := by
      rw [List.reverse_append, dropLeadingWS_append_of_space _ _
        (fun x hx => h2 x (List.mem_reverse.mp hx))]
      exact dropLeadingWS_of_head _ (by
        intro x hx
        rw [List.head?_reverse] at hx
        exact hl x hx)
    unfold pyStripList
    rw [hstep1, hstep2]
    exact List.reverse_reverse _

lemma splitWSAux_all_space (ws : List Char) (acc : List Char)
    (h : ∀ c ∈ ws, pyIsSpace c = true) :
    splitWSAux ws acc = if acc = [] then [] else [⟨acc.reverse⟩] := by
  induction ws generalizing acc with
  | nil => rfl
  | cons c t ih =>
    have hc : pyIsSpace c = true := h c (by simp)
    have ht : ∀ x ∈ t, pyIsSpace x = true := fun x hx => h x (by simp [hx])
    by_cases ha : acc = []
    · subst ha
      simpa [splitWSAux, hc] using ih [] ht
    · simp only [splitWSAux, hc, if_true, ha, if_neg ha, if_false]
      rw [ih [] ht]
      simp

lemma splitWSAux_append_space (cs ws : List Char) (acc : List Char)
    (h : ∀ c ∈ ws, pyIsSpace c = true) :
    splitWSAux (cs ++ ws) acc = splitWSAux cs acc := by
  induction cs generalizing acc with
  | nil =>
    simp only [List.nil_append]
    rw [splitWSAux_all_space ws acc h]
    rfl
  | cons c t ih =>
    by_cases hc : pyIsSpace c = true <;> by_cases ha : acc = [] <;>
      simp [splitWSAux, hc, ha, ih]

lemma splitWSAux_space_head (ws cs : List Char) (h : ∀ c ∈ ws, pyIsSpace c = true) :
    splitWSAux (ws ++ cs) [] = splitWSAux cs [] := by
  induction ws with
  | nil => rfl
  | cons c t ih =>
    have hc : pyIsSpace c = true := h c (by simp)
    have ht : ∀ x ∈ t, pyIsSpace x = true := fun x hx => h x (by simp [hx])
    simpa [splitWSAux, hc] using ih ht

lemma ne_empty_of_mem_splitWSAux (cs : List Char) (acc : List Char) (t : String)
    (ht : t ∈ splitWSAux cs acc) : ¬(t = "") := by
  induction cs generalizing acc with
  | nil =>
    by_cases ha : acc = []
    · subst ha
      simp [splitWSAux] at ht
    · simp only [splitWSAux, if_neg ha] at ht
      rcases List.mem_singleton.mp ht with rfl
      intro hteq
      rw [string_mk_eq_empty_iff] at hteq
      exact ha (by simpa using hteq)
  | cons c cs ih =>
    by_cases hc : pyIsSpace c = true
    · by_cases ha : acc = []
      · subst ha
        simp only [splitWSAux, hc, if_true] at ht
        exact ih [] ht
      · simp only [splitWSAux, hc, if_true, if_neg ha, List.mem_cons] at ht
        rcases ht with rfl | ht
        · intro hteq
          rw [string_mk_eq_empty_iff] at hteq
          exact ha (by simpa using hteq)
        · exact ih [] ht
    · have hc' : pyIsSpace c = false := by simpa using hc
      simp [splitWSAux, hc'] at ht
      exact ih (c :: acc) ht

lemma splitWSAux_stripList (cs : List Char) :
    splitWSAux (pyStripList cs) [] = splitWSAux cs [] := by
  obtain ⟨ws1, h1, hall1⟩ := dropLeadingWS_exists_ws cs
  obtain ⟨ws2, h2, hall2⟩ := dropLeadingWS_exists_ws (dropLeadingWS cs).reverse
  have hl1eq : dropLeadingWS cs =
      (dropLeadingWS (dropLeadingWS cs).reverse).reverse ++ ws2.reverse := by
    have := congrArg List.reverse h2
    simpa [List.reverse_append] using this
  calc splitWSAux (pyStripList cs) []
      = splitWSAux ((dropLeadingWS (dropLeadingWS cs).reverse).reverse ++ ws2.reverse) [] :=
        (splitWSAux_append_space _ _ []
          (fun c hc => hall2 c (List.mem_reverse.mp hc))).symm
    _ = splitWSAux (dropLeadingWS cs) [] := by rw [← hl1eq]
    _ = splitWSAux (ws1 ++ dropLeadingWS cs) [] :=
        (splitWSAux_space_head ws1 _ hall1).symm
    _ = splitWSAux cs [] := by rw [← h1]

/-! Helper lemmas about color validation. -/

lemma nonspace_of_valid {s : String} (h : ValidColorInput s) :
    ∀ c ∈ s.data, pyIsSpace c = false := by
  obtain ⟨_h6, hhex⟩ := h
  intro c hc
  by_cases hh : s.data.head? = some '#'
  · have hsd : s.data = '#' :: s.data.tail := by
      cases sd : s.data with
      | nil => rw [sd] at hh; simp at hh
      | cons a t =>
        rw [sd] at hh
        simp only [List.head?_cons, Option.some.injEq] at hh
        subst hh
        simp
    rw [hsd] at hc
    rcases List.mem_cons.mp hc with rfl | hc2
    · rfl
    · have hmem : c ∈ dehash s.data := by
        rw [dehash, if_pos hh]
        exact hc2
      exact pyIsSpace_eq_false_of_hex (hhex c hmem)
  · have hed : dehash s.data = s.data := by rw [dehash, if_neg hh]
    exact pyIsSpace_eq_false_of_hex (hhex c (by rwa [hed]))

lemma not_parseCore_fail_of_valid {cs : List Char}
    (h6 : cs.length = 6) (hhex : ∀ c ∈ cs, isHexCh c = true) :
    ¬(cs.length ≠ 6 ∨ cs.any (fun c => !(isHexCh c)) = true) := by
  rintro (hbad | hbad)
  · exact hbad h6
  · obtain ⟨c, hc, hb⟩ := List.any_eq_true.mp hbad
    rw [hhex c hc] at hb
    exact absurd hb (by decide)

lemma parse_hex_color_ok_of_valid (s : String) (h : ValidColorInput s) :
    parse_hex_color s = .ok ⟨(dehash s.data).map asciiToLower⟩ := by
  have hmem := nonspace_of_valid h
  have hstrip : pyStripList s.data = s.data := by
    apply pyStripList_of_clean
    · exact fun c hc => hmem c (List.mem_of_mem_head? (Option.mem_def.mpr hc))
    · exact fun c hc => hmem c (List.mem_of_mem_getLast? (Option.mem_def.mpr hc))
  unfold parse_hex_color
  rw [hstrip]
  unfold parseCore
  rw [if_neg (not_parseCore_fail_of_valid h.1 h.2)]

lemma dehash_eq_self_of_hexColor {s : String} (h : IsHexColor s) :
    dehash s.data = s.data := by
  rw [dehash, if_neg]
  intro hh
  have hmem : '#' ∈ s.data := List.mem_of_mem_head? (Option.mem_def.mpr hh)
  have := h.2 '#' hmem
  simp at this

lemma parse_hex_color_id_of_hexColor (c : String) (h : IsHexColor c) :
    parse_hex_color c = .ok c := by
  have hall : ∀ ch ∈ c.data, isHexCh ch = true := fun ch hch => isHexCh_of_lower (h.2 ch hch)
  have hdh := dehash_eq_self_of_hexColor h
  have hvalid : ValidColorInput c := by
    refine ⟨?_, ?_⟩ <;> rw [hdh]
    · exact h.1
    · exact hall
  have hres := parse_hex_color_ok_of_valid c hvalid
  rw [hdh] at hres
  have hmap : c.data.map asciiToLower = c.data :=
    (List.map_congr_left fun a ha => asciiToLower_fix (h.2 a ha)).trans (List.map_id _)
  rw [hmap] at hres
  exact hres

lemma hexColor_ne_empty {s : String} (h : IsHexColor s) : ¬(s = "") := by
  intro heq
  have : s.data.length = 6 := h.1
  rw [heq] at this
  simp at this

lemma parseColorList_id (l : List String) (h : ∀ t ∈ l, IsHexColor t) :
    parseColorList l = .ok l := by
  induction l with
  | nil => rfl
  | cons t ts ih =>
    have ht := parse_hex_color_id_of_hexColor t (h t (by simp))
    have hts := ih fun x hx => h x (by simp [hx])
    simp only [parseColorList, ht, hts]
    rfl

lemma except_bind_ok {ε α β : Type} (a : α) (f : α → Except ε β) :
    (Except.ok a >>= f) = f a := rfl

lemma except_pure_eq_ok {ε α : Type} (a : α) : (pure a : Except ε α) = Except.ok a := rfl

/-! Helper lemma about fan path detection. -/

lemma detect_cases {fs : Fs} {p : String} (h : detect_sense_fan_path fs = some p) :
    p = PRED_FAN ∨ p = NITRO_FAN := by
  unfold detect_sense_fan_path at h
  by_cases h1 : fs.pathExists SYSFS_BASE = true
  · by_cases h2 : fs.pathExists SENSE_PRED = true
    · simp only [h1, h2, if_true] at h
      by_cases h4 : fs.pathExists (SENSE_PRED ++ "/fan_speed") = true
      · rw [if_pos h4] at h
        exact Or.inl (Option.some.inj h).symm
      · rw [if_neg h4] at h
        exact absurd h (by simp)
    · by_cases h3 : fs.pathExists SENSE_NITRO = true
      · by_cases h4 : fs.pathExists (SENSE_NITRO ++ "/fan_speed") = true
        · simp [h1, h2, h3, h4] at h
          exact Or.inr h.symm
        · simp [h1, h2, h3, h4] at h
      · simp [h1, h2, h3] at h
  · simp [h1] at h

/-- The token list computed by the power page — split of the stripped raw
contents, empty tokens filtered — equals the plain whitespace split of the
raw contents. -/
lemma power_tokens_eq (raw : String) :
    (pySplitWS (pyStrip raw)).filter (fun c => !(c == "")) = pySplitWS raw := by
  have hfilter : (pySplitWS (pyStrip raw)).filter (fun c => !(c == "")) =
      pySplitWS (pyStrip raw) := by
    refine List.filter_eq_self.mpr ?_
    intro t ht
    have hne : ¬(t = "") := ne_empty_of_mem_splitWSAux (pyStrip raw).data [] t ht
    simpa using hne
  rw [hfilter]
  unfold pySplitWS pyStrip
  exact splitWSAux_stripList raw.data

/-! Claim theorems. -/

/-- Claim C1, counterexample: on a filesystem where the predator directory
exists without its `fan_speed` file while the nitro directory has one, the
code's `detect_sense_fan_path` returns NotFound, whereas the claimed
resolution ("winner is the first candidate whose fan_speed file exists")
returns the nitro path. -/
theorem C1_fan_path_counterexample :
    detect_sense_fan_path fsPredNoFan = none ∧
    claimFanResolve fsPredNoFan = some NITRO_FAN := by
  exact ⟨rfl, rfl⟩

/-- Claim C1, amended: resolution first commits to a base directory by
directory existence (predator first, then nitro, requiring the sysfs base),
and then returns that base's `fan_speed` file if it exists, NotFound
otherwise; in particular a predator directory without `fan_speed` masks a
nitro `fan_speed`, yielding NotFound. -/
theorem C1_fan_path_amended (fs : Fs) :
    detect_sense_fan_path fs =
      (if fs.pathExists SYSFS_BASE then
        if fs.pathExists SENSE_PRED then
          (if fs.pathExists PRED_FAN then some PRED_FAN else none)
        else if fs.pathExists SENSE_NITRO then
          (if fs.pathExists NITRO_FAN then some NITRO_FAN else none)
        else none
      else none) := by
  unfold detect_sense_fan_path
  by_cases h1 : fs.pathExists SYSFS_BASE = true <;>
    by_cases h2 : fs.pathExists SENSE_PRED = true <;>
      by_cases h3 : fs.pathExists SENSE_NITRO = true <;>
        simp [h1, h2, h3, PRED_FAN, NITRO_FAN]

/-- Claim C2, counterexample: "rainbow" is not a key of the mode table, yet
`apply_effect` does not fail; it encodes mode id 0 into the payload and
writes it. -/
theorem C2_unknown_mode_counterexample :
    MODE_NAME_TO_ID.lookup "rainbow" = none ∧
    apply_effect fsAll okWriter "rainbow" 1 100 2 "" =
      (.info "Keyboard effect applied", [(KB_FOUR_MODE, "0,1,100,2,0,0,0\n")]) := by
  exact ⟨rfl, rfl⟩

/-- Claim C2, amended: an effect-mode name that is not a key of the table is
silently mapped to mode id 0 (the `dict.get` default) and the payload is
encoded and handed to the write stage normally; no error is raised for the
unknown name. -/
theorem C2_unknown_mode_amended (fs : Fs) (modeName : String)
    (hname : MODE_NAME_TO_ID.lookup modeName = none)
    (hpath : fs.pathExists KB_FOUR_MODE = true)
    (speed brightness direction : Int) :
    apply_effect_core fs modeName speed brightness direction "" =
      .ok (KB_FOUR_MODE, encodeKeyboardEffectSpec 0 speed brightness direction none) := by
  unfold apply_effect_core
  simp [hpath, hname, pyStrip, pyStripList, dropLeadingWS, encodeKeyboardEffectSpec]
  rfl

/-- Claim C2 amended, witness: the unknown name "rainbow" at concrete
parameters yields the mode-id-0 payload. -/
theorem C2_unknown_mode_amended_witness :
    apply_effect_core fsAll "rainbow" 1 100 2 "" =
      .ok (KB_FOUR_MODE, encodeKeyboardEffectSpec 0 1 100 2 none) :=
  C2_unknown_mode_amended fsAll "rainbow" rfl rfl 1 100 2

/-- Claim C3, counterexample: on the input `" 00aaff"` (leading space) the
claimed validation — which strips only an optional `'#'` — rejects, while
the code's `parse_hex_color` strips whitespace first and accepts. -/
theorem C3_color_validation_counterexample :
    validateColorClaim " 00aaff" = none ∧
    parse_hex_color " 00aaff" = .ok "00aaff" := by
  exact ⟨by decide, rfl⟩

/-- Claim C3, amended: color validation first strips leading and trailing
whitespace, then strips a single optional leading `'#'`, then succeeds if
and only if exactly 6 hex characters (case-insensitive) remain, returning
the lowercase form; otherwise it fails with the InvalidFormat error. -/
theorem C3_color_validation_amended (s : String) :
    (∀ t, parse_hex_color s = .ok t ↔ validateColorSpec s = some t) ∧
    (validateColorSpec s = none →
      parse_hex_color s = .error (.valueError "Use RRGGBB or #RRGGBB")) := by
  unfold parse_hex_color parseCore validateColorSpec
  by_cases hC : (dehash (pyStripList s.data)).length = 6 ∧
      ∀ c ∈ dehash (pyStripList s.data), isHexCh c = true
  · rw [if_pos hC, if_neg (not_parseCore_fail_of_valid hC.1 hC.2)]
    constructor
    · intro t
      simp
    · intro hnone
      simp at hnone
  · rw [if_neg hC]
    have hcond : (dehash (pyStripList s.data)).length ≠ 6 ∨
        (dehash (pyStripList s.data)).any (fun c => !(isHexCh c)) = true := by
      by_cases h6 : (dehash (pyStripList s.data)).length = 6
      · right
        have hb : ¬∀ c ∈ dehash (pyStripList s.data), isHexCh c = true :=
          fun hb => hC ⟨h6, hb⟩
        push_neg at hb
        obtain ⟨c, hc, hne⟩ := hb
        refine List.any_eq_true.mpr ⟨c, hc, ?_⟩
        simp only [Bool.not_eq_true] at hne ⊢
        simp [hne]
      · exact Or.inl h6
    rw [if_pos hcond]
    exact ⟨fun t => by simp, fun _ => rfl⟩

/-- Claim C3 amended, witness: `"#00AAFF"` validates to the lowercase form
both under the code and under the amended description. -/
theorem C3_color_validation_amended_witness :
    parse_hex_color "#00AAFF" = .ok "00aaff" ∧
    validateColorSpec "#00AAFF" = some "00aaff" := by
  refine ⟨((C3_color_validation_amended "#00AAFF").1 "00aaff").mpr (by decide), by decide⟩

/-- Claim C10 (confirmed): color validation strips surrounding whitespace
before any other check, so a valid color surrounded by any whitespace parses
exactly like the bare color, which itself succeeds. -/
theorem C10_whitespace_strip (body ws1 ws2 : String)
    (hbody : ValidColorInput body)
    (h1 : ∀ c ∈ ws1.data, pyIsSpace c = true)
    (h2 : ∀ c ∈ ws2.data, pyIsSpace c = true) :
    parse_hex_color (ws1 ++ body ++ ws2) = parse_hex_color body ∧
    ∃ t, parse_hex_color body = .ok t := by
  have hmem := nonspace_of_valid hbody
  have hdata : (ws1 ++ body ++ ws2).data = ws1.data ++ body.data ++ ws2.data := by
    rw [String.data_append, String.data_append]
  have hh : ∀ c, body.data.head? = some c → pyIsSpace c = false :=
    fun c hc => hmem c (List.mem_of_mem_head? (Option.mem_def.mpr hc))
  have hl : ∀ c, body.data.getLast? = some c → pyIsSpace c = false :=
    fun c hc => hmem c (List.mem_of_mem_getLast? (Option.mem_def.mpr hc))
  have hstrip1 : pyStripList (ws1.data ++ body.data ++ ws2.data) = body.data :=
    pyStripList_padded ws1.data body.data ws2.data h1 h2 hh hl
  have hstrip2 : pyStripList body.data = body.data := pyStripList_of_clean _ hh hl
  refine ⟨?_, ⟨_, parse_hex_color_ok_of_valid body hbody⟩⟩
  unfold parse_hex_color
  rw [hdata, hstrip1, hstrip2]

/-- Claim C4 (confirmed): for a mode that is a key of the table and a valid
(normalized lowercase) optional color, the keyboard-effect payload is the
comma-separated decimal integers `modeId,speed,brightness,direction,r,g,b`
plus a single newline, with `r,g,b` the base-16 values of the color's hex
digit pairs `[0:2]`, `[2:4]`, `[4:6]` when present and 0 otherwise. -/
theorem C4_effect_payload (fs : Fs) (hpath : fs.pathExists KB_FOUR_MODE = true)
    (modeName : String) (modeId : Int)
    (hmode : MODE_NAME_TO_ID.lookup modeName = some modeId)
    (speed brightness direction : Int) (color : Option String)
    (hcolor : ∀ c, color = some c → IsHexColor c) :
    apply_effect_core fs modeName speed brightness direction (color.getD "") =
      .ok (KB_FOUR_MODE, encodeKeyboardEffectSpec modeId speed brightness direction color) := by
  cases color with
  | none =>
    unfold apply_effect_core
    simp [hpath, hmode, pyStrip, pyStripList, dropLeadingWS, encodeKeyboardEffectSpec,
      except_bind_ok, except_pure_eq_ok]
  | some c =>
    have hc := hcolor c rfl
    have hparse := parse_hex_color_id_of_hexColor c hc
    have hmem : ∀ ch ∈ c.data, pyIsSpace ch = false :=
      fun ch hch => pyIsSpace_eq_false_of_hex (isHexCh_of_lower (hc.2 ch hch))
    have hstrip : pyStrip c = c := by
      unfold pyStrip
      rw [pyStripList_of_clean c.data
        (fun x hx => hmem x (List.mem_of_mem_head? (Option.mem_def.mpr hx)))
        (fun x hx => hmem x (List.mem_of_mem_getLast? (Option.mem_def.mpr hx)))]
    have hne : ¬(c = "") := hexColor_ne_empty hc
    unfold apply_effect_core
    simp [hpath, hmode, hstrip, hne, hparse, encodeKeyboardEffectSpec, hexPairVal,
      except_bind_ok, except_pure_eq_ok]

/-- Claim C4, witness: mode "wave" (id 3) with color `"ff00aa"` yields the
payload `"3,1,100,2,255,0,170\n"`. -/
theorem C4_effect_payload_witness :
    apply_effect_core fsAll "wave" 1 100 2 "ff00aa" =
      .ok (KB_FOUR_MODE, "3,1,100,2,255,0,170\n") := by
  have h := C4_effect_payload fsAll rfl "wave" 3 rfl 1 100 2 (some "ff00aa")
    (by
      intro c hc
      injection hc with hc
      subst hc
      unfold IsHexColor
      exact ⟨rfl, by decide⟩)
  rw [show (some "ff00aa").getD "" = "ff00aa" from rfl] at h
  rw [h]
  rfl

/-- Claim C5 (confirmed): for valid zone colors and brightness, the static
payload is exactly `color1,color2,color3,color4,brightness` plus one
newline, a single input color being replicated to all 4 zones first. -/
theorem C5_static_payload (fs : Fs) (hpath : fs.pathExists KB_PER_ZONE = true)
    (brightness : Int) (hbr : 0 ≤ brightness ∧ brightness ≤ 100)
    (single : Bool) (singleText : String) (zoneTexts : List String)
    (hsingle : single = true → IsHexColor singleText)
    (hzones : single = false → zoneTexts.length = 4 ∧ ∀ t ∈ zoneTexts, IsHexColor t) :
    apply_static_core fs single singleText zoneTexts brightness =
      .ok (KB_PER_ZONE, encodeKeyboardStaticSpec
        (if single then List.replicate 4 singleText else zoneTexts) brightness) := by
  cases single with
  | true =>
    have hparse := parse_hex_color_id_of_hexColor singleText (hsingle rfl)
    unfold apply_static_core
    simp [hpath, hparse, encodeKeyboardStaticSpec, except_bind_ok, except_pure_eq_ok]
  | false =>
    obtain ⟨hlen, hall⟩ := hzones rfl
    have hparse := parseColorList_id zoneTexts hall
    unfold apply_static_core
    simp [hpath, hparse, hlen, encodeKeyboardStaticSpec, except_bind_ok, except_pure_eq_ok]

/-- Claim C5, witness: single color `"00aaff"` at brightness 100 yields the
replicated payload. -/
theorem C5_static_payload_witness :
    apply_static_core fsAll true "00aaff" [] 100 =
      .ok (KB_PER_ZONE, "00aaff,00aaff,00aaff,00aaff,100\n") := by
  have h := C5_static_payload fsAll rfl 100 (by decide) true "00aaff" []
    (by
      intro _
      unfold IsHexColor
      exact ⟨rfl, by decide⟩)
    (by intro hfalse; cases hfalse)
  rw [h]
  rfl

/-- Claim C6 (confirmed): once the fan path resolves, Auto encodes to the
literal `"0,0\n"` and Manual cpu,gpu in range encodes to `"{cpu},{gpu}\n"`
as plain decimal text; Manual 0,0 encodes identically to Auto and is not
reinterpreted by the encoding step. -/
theorem C6_fan_payload (fs : Fs) (p : String)
    (hdet : detect_sense_fan_path fs = some p)
    (auto : Bool) (cpu gpu : Int)
    (hcpu : 0 ≤ cpu ∧ cpu ≤ 100) (hgpu : 0 ≤ gpu ∧ gpu ≤ 100) :
    apply_fans_core fs auto cpu gpu =
      .ok (p, if auto then "0,0\n" else toString cpu ++ "," ++ toString gpu ++ "\n") ∧
    apply_fans_core fs false 0 0 = apply_fans_core fs true 0 0 := by
  have hp : ¬(p = "") := by
    rcases detect_cases hdet with rfl | rfl <;> decide
  have hrange : 0 ≤ cpu ∧ cpu ≤ 100 ∧ 0 ≤ gpu ∧ gpu ≤ 100 :=
    ⟨hcpu.1, hcpu.2, hgpu.1, hgpu.2⟩
  have hr0 : (0 : Int) ≤ 0 ∧ (0 : Int) ≤ 100 ∧ (0 : Int) ≤ 0 ∧ (0 : Int) ≤ 100 := by decide
  constructor
  · unfold apply_fans_core
    rw [hdet]
    cases auto with
    | true => simp [hp, except_pure_eq_ok]
    | false => simp [hp, hrange, except_pure_eq_ok]
  · unfold apply_fans_core
    rw [hdet]
    simp [hp, hr0, except_pure_eq_ok]
    rfl

/-- Claim C6, witness: Manual 40,60 on the predator path yields `"40,60\n"`,
and Manual 0,0 encodes identically to Auto. -/
theorem C6_fan_payload_witness :
    apply_fans_core fsPred false 40 60 = .ok (PRED_FAN, "40,60\n") ∧
    apply_fans_core fsPred false 0 0 = apply_fans_core fsPred true 0 0 := by
  have h := C6_fan_payload fsPred PRED_FAN rfl false 40 60 (by decide) (by decide)
  refine ⟨?_, h.2⟩
  rw [h.1]
  rfl

/-- Claim C10, witness: `" #00AAff\t\n"` parses exactly like `"#00AAff"`,
which succeeds. -/
theorem C10_whitespace_strip_witness :
    parse_hex_color (" " ++ "#00AAff" ++ "\t\n") = parse_hex_color "#00AAff" ∧
    ∃ t, parse_hex_color "#00AAff" = .ok t :=
  C10_whitespace_strip "#00AAff" " " "\t\n"
    (by unfold ValidColorInput; exact ⟨by decide, by decide⟩) (by decide) (by decide)

/-- Claim C7 (confirmed): for every apply operation, a pre-write failure
(path resolution, validation or encoding) short-circuits the call: the
handler reports the error and attempts no write to any device file. -/
theorem C7_no_write_on_early_failure (fs : Fs) (w : Writer)
    (single : Bool) (st : String) (zs : List String) (b : Int)
    (mn : String) (sp br di : Int) (ct : String)
    (auto : Bool) (cpu gpu : Int)
    (chs : List String) (idx : Nat) :
    (∀ e, apply_static_core fs single st zs b = .error e →
      apply_static fs w single st zs b = (.error ("Error: " ++ e.msg), [])) ∧
    (∀ e, apply_effect_core fs mn sp br di ct = .error e →
      apply_effect fs w mn sp br di ct = (.error ("Error: " ++ e.msg), [])) ∧
    (∀ e, apply_fans_core fs auto cpu gpu = .error e →
      apply_fans fs w auto cpu gpu = (.error ("Error: " ++ e.msg), [])) ∧
    (∀ e, apply_profile_core fs chs idx = .error e →
      apply_profile fs w chs idx = (.error ("Error: " ++ e.msg), [])) := by
  refine ⟨?_, ?_, ?_, ?_⟩ <;> intro e he <;>
    simp [apply_static, apply_effect, apply_fans, apply_profile, runApply, he]

/-- Claim C7, witness: an invalid color makes `apply_static` report the
validation error with an empty write trace. -/
theorem C7_no_write_on_early_failure_witness :
    apply_static fsAll okWriter true "zz" [] 100 =
      (.error "Error: Use RRGGBB or #RRGGBB", []) :=
  (C7_no_write_on_early_failure fsAll okWriter true "zz" [] 100
    "wave" 1 100 2 "" true 0 0 [] 0).1 (.valueError "Use RRGGBB or #RRGGBB") rfl

/-- Claim C8 (confirmed): when the pre-write stages succeed, a permission
failure from the write collaborator is reported with the dedicated
permission message (suggesting root), never the generic error shape, and
any other write failure is reported generically with the underlying
message. -/
theorem C8_permission_distinct (fs : Fs) (w : Writer)
    (single : Bool) (st : String) (zs : List String) (b : Int)
    (mn : String) (sp br di : Int) (ct : String)
    (auto : Bool) (cpu gpu : Int)
    (chs : List String) (idx : Nat) :
    (∀ p pay, apply_static_core fs single st zs b = .ok (p, pay) →
      (w p pay = .permissionError →
        apply_static fs w single st zs b =
          (.error "Permission denied: run as root to apply.", [(p, pay)])) ∧
      (∀ m, w p pay = .ioError m →
        apply_static fs w single st zs b = (.error ("Error: " ++ m), [(p, pay)]))) ∧
    (∀ p pay, apply_effect_core fs mn sp br di ct = .ok (p, pay) →
      (w p pay = .permissionError →
        apply_effect fs w mn sp br di ct =
          (.error "Permission denied: run as root to apply.", [(p, pay)])) ∧
      (∀ m, w p pay = .ioError m →
        apply_effect fs w mn sp br di ct = (.error ("Error: " ++ m), [(p, pay)]))) ∧
    (∀ p pay, apply_fans_core fs auto cpu gpu = .ok (p, pay) →
      (w p pay = .permissionError →
        apply_fans fs w auto cpu gpu =
          (.error "Permission denied: run as root to apply.", [(p, pay)])) ∧
      (∀ m, w p pay = .ioError m →
        apply_fans fs w auto cpu gpu = (.error ("Error: " ++ m), [(p, pay)]))) ∧
    (∀ sel p pay, apply_profile_core fs chs idx = .ok (sel, p, pay) →
      (w p pay = .permissionError →
        apply_profile fs w chs idx =
          (.error "Permission denied: run as root to apply.", [(p, pay)])) ∧
      (∀ m, w p pay = .ioError m →
        apply_profile fs w chs idx = (.error ("Error: " ++ m), [(p, pay)]))) := by
  refine ⟨?_, ?_, ?_, ?_⟩
  · intro p pay hok
    refine ⟨fun hw => ?_, fun m hw => ?_⟩ <;>
      simp [apply_static, runApply, hok, hw]
  · intro p pay hok
    refine ⟨fun hw => ?_, fun m hw => ?_⟩ <;>
      simp [apply_effect, runApply, hok, hw]
  · intro p pay hok
    refine ⟨fun hw => ?_, fun m hw => ?_⟩ <;>
      simp [apply_fans, runApply, hok, hw]
  · intro sel p pay hok
    refine ⟨fun hw => ?_, fun m hw => ?_⟩ <;>
      simp [apply_profile, hok, hw]

/-- Claim C8, witness: a permission failure on a resolved fan write yields
the dedicated permission message. -/
theorem C8_permission_distinct_witness :
    apply_fans fsPred permWriter true 0 0 =
      (.error "Permission denied: run as root to apply.", [(PRED_FAN, "0,0\n")]) :=
  ((C8_permission_distinct fsPred permWriter true "" [] 0 "" 0 0 0 "" true 0 0 [] 0).2.2.1
    PRED_FAN "0,0\n" rfl).1 rfl

/-- Claim C9 (confirmed): the resolved power-profile choice list is exactly
the whitespace split of the choices file (order preserved, empties dropped,
no de-duplication) whenever the file exists, is readable and yields tokens;
otherwise it is the hardcoded default list. -/
theorem C9_power_choices (fs : Fs) :
    load_power_choices fs =
      (match (if fs.pathExists PLATFORM_PROFILE_CHOICES then
                fs.read PLATFORM_PROFILE_CHOICES else none) with
       | none => DEFAULT_CHOICES
       | some raw => if pySplitWS raw = [] then DEFAULT_CHOICES else pySplitWS raw) := by
  unfold load_power_choices
  by_cases hex : fs.pathExists PLATFORM_PROFILE_CHOICES = true
  · cases hr : fs.read PLATFORM_PROFILE_CHOICES with
    | none => simp [hex, hr]
    | some raw => simp [hex, hr, power_tokens_eq]
  · simp [hex]

end LinuwuSense
